import Mathlib

/-!
Verification of the real-time fan-out core in h/streamer/messages.py.

The Python source is shallowly embedded: dictionaries whose relevant keys may
be missing become structures with Option-typed fields, Python exceptions become
an Except error value, and the external collaborators named in the spec
(the store fetch, the serializer, the shadow-ban lookup and the principal
translation helper imported from h.auth.util, none of which live under the
streamer module) become explicit function parameters.
-/

/-- A Python exception escaping the delivery pipeline: AttributeError is what
calling a method on None raises; KeyError is what a missing mandatory
dictionary key raises. -/
inductive PyErr where
  | attributeError
  | keyError
  deriving DecidableEq

/-- The permissions entry of a serialized document. The read key may be
missing; the source reads it with a defaulted get. -/
structure Perms where
  read : Option (List String)
  deriving DecidableEq

/-- A serialized document as the pipeline consumes it: the user (author
identity) and permissions keys may each be absent; everything else in the
dictionary is opaque to the pipeline and kept as one field. -/
structure Doc where
  user : Option String
  permissions : Option Perms
  extra : String
  deriving DecidableEq

/-- A live store record, opaque except for its author identity, which the
handler reads as its userid attribute. -/
structure Annotation where
  userid : String
  body : String
  deriving DecidableEq

/-- One live client connection as the pipeline sees it: client_id,
authenticated_userid (nullable), the client-installed filter predicate
(nullable; its match method takes the serialized document and the action),
and the principal set of the authenticated identity. -/
structure Socket where
  client_id : String
  authenticated_userid : Option String
  filter : Option (Doc → String → Bool)
  effective_principals : List String

/-- The payload of one bus message on the annotation-event topic. The
annotation_dict snapshot is only guaranteed present for delete events; the
source indexes it unconditionally on the delete path and reads it with a
defaulted get elsewhere, so it is Option-typed here. -/
structure AnnotationMessage where
  action : String
  annotation_id : String
  src_client_id : String
  annotation_dict : Option Doc

/-- The options sub-dictionary of an outgoing notification. -/
structure NotificationOptions where
  action : String
  deriving DecidableEq

/-- One element of an outgoing notification payload list: either a full
serialized document or the reduced identifier-only dictionary used for
delete events. -/
inductive PayloadItem where
  | doc (d : Doc)
  | idOnly (id : String)
  deriving DecidableEq

/-- The outgoing annotation-notification message. -/
structure Notification where
  type : String
  options : NotificationOptions
  payload : List PayloadItem
  deriving DecidableEq

/-- Embedding of the private read-authorization helper at the bottom of
h/streamer/messages.py. When the permissions argument is None, the defaulted
get on it raises AttributeError, which this embedding surfaces as an error;
otherwise the read principal list (defaulted to empty) is translated and
intersected with the effective principals. The translation function is the
helper imported from h.auth.util, passed here as a parameter. -/
def authorized_to_read (translate : List String → List String)
    (effective_principals : List String) (permissions : Option Perms) :
    Except PyErr Bool :=
  match permissions with
  | none => .error .attributeError
  | some perms =>
    let read_permissions := perms.read.getD []
    let read_principals := translate read_permissions
    if read_principals.any (fun p => effective_principals.contains p) then
      .ok true
    else
      .ok false

/-- The serialized document used by the pipeline, factored out of the source
inline code: for a delete action it is the pre-captured annotation_dict
snapshot (a missing snapshot raises KeyError); otherwise a missing live
record means no document (the source returns early), and a present one is
serialized fresh for this connection. -/
def resolvedDoc (message : AnnotationMessage) (ann : Option Annotation)
    (serialize : Annotation → Socket → Doc) (socket : Socket) :
    Except PyErr (Option Doc) :=
  if message.action = "delete" then
    match message.annotation_dict with
    | none => .error .keyError
    | some d => .ok (some d)
  else
    match ann with
    | none => .ok none
    | some a => .ok (some (serialize a socket))

/-- Embedding of the per-connection delivery pipeline for one annotation
event. Gate order follows the source: read-action suppression, self-echo
suppression, missing-filter suppression, document resolution, shadow-ban
redaction, read authorization, client filter match, then payload shaping
(identifier-only for deletes). A None result means nothing is sent to this
socket; an error result is a Python exception escaping the pipeline. -/
def generate_annotation_event (translate : List String → List String)
    (serialize : Annotation → Socket → Doc)
    (message : AnnotationMessage) (socket : Socket)
    (ann : Option Annotation) (user_nipsad : Bool) :
    Except PyErr (Option Notification) :=
  let action := message.action
  if action = "read" then .ok none
  else if message.src_client_id = socket.client_id then .ok none
  else
    match socket.filter with
    | none => .ok none
    | some fl =>
      match resolvedDoc message ann serialize socket with
      | .error e => .error e
      | .ok none => .ok none
      | .ok (some serialized) =>
        let userid := serialized.user
        if user_nipsad ∧ socket.authenticated_userid ≠ userid then .ok none
        else
          match authorized_to_read translate socket.effective_principals
              serialized.permissions with
          | .error e => .error e
          | .ok authorized =>
            if ¬ authorized then .ok none
            else if ¬ fl serialized action then .ok none
            else
              .ok (some
                { type := "annotation-notification"
                  options := { action := action }
                  payload :=
                    if action = "delete" then
                      [PayloadItem.idOnly message.annotation_id]
                    else
                      [PayloadItem.doc serialized] })

/-- The send loop at the bottom of the annotation handler: run the pipeline
for each socket in order and collect the pairs actually sent; a pipeline
exception propagates out of the loop as in the source. -/
def annotationSendLoop (translate : List String → List String)
    (serialize : Annotation → Socket → Doc)
    (message : AnnotationMessage) (ann : Option Annotation)
    (user_nipsad : Bool) :
    List Socket → Except PyErr (List (Socket × Notification))
  | [] => .ok []
  | socket :: rest =>
    match generate_annotation_event translate serialize message socket ann
        user_nipsad with
    | .error e => .error e
    | .ok none => annotationSendLoop translate serialize message ann user_nipsad rest
    | .ok (some reply) =>
      match annotationSendLoop translate serialize message ann user_nipsad rest with
      | .error e => .error e
      | .ok sent => .ok ((socket, reply) :: sent)

/-- Embedding of the annotation-event topic handler. The store fetch and the
shadow-ban service lookup are external collaborators passed as parameters.
The first component of the result records, in order, each userid the handler
passes to the shadow-ban lookup: the source calls the lookup at exactly one
call site, before the send loop, so the trace is built at that point and the
per-connection pipeline receives only the resulting boolean. -/
def handle_annotation_event (translate : List String → List String)
    (serialize : Annotation → Socket → Doc)
    (fetch : String → Option Annotation)
    (is_flagged : Option String → Bool)
    (message : AnnotationMessage) (sockets : List Socket) :
    List (Option String) × Except PyErr (List (Socket × Notification)) :=
  let ann := fetch message.annotation_id
  let userid : Option String :=
    match ann with
    | some a => some a.userid
    | none =>
      match message.annotation_dict with
      | none => none
      | some d => d.user
  let user_nipsad := is_flagged userid
  ([userid],
   annotationSendLoop translate serialize message ann user_nipsad sockets)

/-- The payload of one bus message on the user topic: the event type, the
targeted (nullable) user identity, and an opaque session model snapshot. -/
structure UserMessage where
  type : String
  userid : Option String
  session_model : String
  deriving DecidableEq

/-- The outgoing session-change message. -/
structure SessionChangeNotification where
  type : String
  action : String
  model : String
  deriving DecidableEq

/-- Embedding of the per-connection decision for one user event: deliver the
fixed session-change shape exactly when the socket's authenticated identity
equals the payload's userid (Python inequality on two nullable values, so
two Nones compare equal). -/
def generate_user_event (message : UserMessage) (socket : Socket) :
    Option SessionChangeNotification :=
  if socket.authenticated_userid ≠ message.userid then none
  else
    some { type := "session-change"
           action := message.type
           model := message.session_model }

/-- Embedding of the user-event topic handler send loop: collect the pairs
actually sent, in socket order. -/
def handle_user_event (message : UserMessage) :
    List Socket → List (Socket × SessionChangeNotification)
  | [] => []
  | socket :: rest =>
    match generate_user_event message socket with
    | none => handle_user_event message rest
    | some reply => (socket, reply) :: handle_user_event message rest

/-- An incoming bus message: a topic and an opaque payload. -/
structure Message where
  topic : String
  payload : String
  deriving DecidableEq

/-- Exact-match lookup in the topic-to-handler mapping, the embedding of a
Python dictionary index. -/
def lookupHandler {α : Type} (topic : String) :
    List (String × α) → Option α
  | [] => none
  | (k, h) :: rest => if k = topic then some h else lookupHandler topic rest

/-- The RuntimeError the dispatcher raises for a topic with no registered
handler. -/
inductive DispatchError where
  | unknownTopic (topic : String)
  deriving DecidableEq

/-- A record of one handler invocation: which handler ran and the arguments
it received (the payload and the connection snapshot). -/
structure HandlerCall (α : Type) where
  handler : α
  payload : String
  sockets : List Socket

/-- Embedding of handle_message: resolve a handler by exact topic match,
raising when none is registered; otherwise invoke it exactly once with the
payload and a snapshot list copied from the live instance set. The result
records the invocation sequence. -/
def handle_message {α : Type} (message : Message) (instances : List Socket)
    (topic_handlers : List (String × α)) :
    Except DispatchError (List (HandlerCall α)) :=
  match lookupHandler message.topic topic_handlers with
  | none => .error (.unknownTopic message.topic)
  | some h =>
    let sockets := instances
    .ok [{ handler := h, payload := message.payload, sockets := sockets }]

/-- Embedding of the tail of process_messages, modeled at the point where
the consumer's run loop has returned (the consumer construction and run are
external collaborators). The source then raises RuntimeError only when its
raise_error parameter — which defaults to true — is set. -/
def process_messages (raise_error : Bool) : Except String Unit :=
  if raise_error then .error "Realtime consumer quit unexpectedly!"
  else .ok ()

/-- Modelled from the spec: the principal translation helper lives in
h.auth.util, outside the streamer module; the spec says only that it maps
the document's read principal list into the principal space of the
connection's effective principals. Sample instantiations below use the
identity translation, and theorems quantify over the translation function. -/
def trId : List String → List String := fun l => l

/-- Sample permissions entry readable by the public group. -/
def permsPublic : Perms := { read := some ["group:public"] }

/-- Sample serialized document authored by u1, readable by the public
group. -/
def docPublic : Doc :=
  { user := some "acct:u1", permissions := some permsPublic, extra := "d" }

/-- Sample serialized document with no permissions entry at all. -/
def docNoPerms : Doc :=
  { user := some "acct:u1", permissions := none, extra := "d" }

/-- Sample serializer that ignores its inputs and returns a fixed
document. -/
def serializeConst (d : Doc) : Annotation → Socket → Doc := fun _ _ => d

/-- Sample live record authored by u1. -/
def annA : Annotation := { userid := "acct:u1", body := "b" }

/-- Accept-all client filter. -/
def acceptAll : Doc → String → Bool := fun _ _ => true

/-- Sample connection holding the public principal, authenticated as u2. -/
def sockC1 : Socket :=
  { client_id := "C1", authenticated_userid := some "acct:u2",
    filter := some acceptAll, effective_principals := ["group:public"] }

/-- Sample connection holding only a private principal. -/
def sockC2 : Socket :=
  { client_id := "C2", authenticated_userid := some "acct:u2",
    filter := some acceptAll,
    effective_principals := ["group:private-x"] }

/-- Sample connection that has not installed a filter yet. -/
def sockNoFilter : Socket :=
  { client_id := "C0", authenticated_userid := none,
    filter := none, effective_principals := [] }

/-- Sample connection authenticated as u1 (the sample author). -/
def sockAuthor : Socket :=
  { client_id := "C3", authenticated_userid := some "acct:u1",
    filter := some acceptAll, effective_principals := ["group:public"] }

/-- Sample create event originating from client C9. -/
def msgCreate : AnnotationMessage :=
  { action := "create", annotation_id := "A1",
    src_client_id := "C9", annotation_dict := none }

/-- Sample delete event carrying the pre-delete snapshot. -/
def msgDelete : AnnotationMessage :=
  { action := "delete", annotation_id := "A1",
    src_client_id := "C9", annotation_dict := some docPublic }

/-- Sample user event targeted at u1. -/
def userMsgU1 : UserMessage :=
  { type := "session-change", userid := some "acct:u1",
    session_model := "m" }

/-- Sample user event with a null userid. -/
def userMsgNull : UserMessage :=
  { type := "session-change", userid := none, session_model := "m" }

/-- Sample permissions entry whose read key is missing. -/
def permsNoRead : Perms := { read := none }

/-- Sample serialized document whose permissions entry lacks a read key. -/
def docNoRead : Doc :=
  { user := some "acct:u1", permissions := some permsNoRead, extra := "d" }

/-- The notification the sample delete event produces for a passing
connection. -/
def notifDelete : Notification :=
  { type := "annotation-notification", options := { action := "delete" },
    payload := [PayloadItem.idOnly "A1"] }

/-- Sample topic-to-handler mapping with opaque handler identifiers. -/
def topicHandlersSample : List (String × Nat) :=
  [("annotation", 1), ("user", 2)]

/-- Sample bus message on the annotation topic. -/
def busMsgAnn : Message := { topic := "annotation", payload := "p" }

/-- The authorization helper raises AttributeError on a missing permissions
entry. -/
theorem authorized_to_read_none_error (translate : List String → List String)
    (effective_principals : List String) :
    authorized_to_read translate effective_principals none =
      .error .attributeError := rfl

/-- The authorization helper answers true exactly when a permissions entry is
present and some translated read principal is an effective principal. -/
theorem authorized_to_read_ok_true_iff (translate : List String → List String)
    (effective_principals : List String) (permissions : Option Perms) :
    authorized_to_read translate effective_principals permissions = .ok true ↔
    ∃ perms, permissions = some perms ∧
      ∃ p, p ∈ translate (perms.read.getD []) ∧ p ∈ effective_principals := by
  unfold authorized_to_read
  cases permissions with
  | none => simp
  | some perms => split <;> simp_all

/-- The authorization helper answers false when a permissions entry is present
but no translated read principal is an effective principal. -/
theorem authorized_to_read_ok_false (translate : List String → List String)
    (effective_principals : List String) (perms : Perms)
    (h : ∀ p ∈ translate (perms.read.getD []), p ∉ effective_principals) :
    authorized_to_read translate effective_principals (some perms) = .ok false := by
  have heq : authorized_to_read translate effective_principals (some perms) =
      if (translate (perms.read.getD [])).any
          (fun p => effective_principals.contains p)
      then .ok true else .ok false := rfl
  rw [heq, if_neg]
  simp only [List.any_eq_true, List.elem_eq_mem, decide_eq_true_eq,
    not_exists, not_and]
  exact h

/-- Read-action events make the pipeline return nothing. -/
theorem generate_none_of_read (translate : List String → List String)
    (serialize : Annotation → Socket → Doc)
    (message : AnnotationMessage) (socket : Socket)
    (ann : Option Annotation) (user_nipsad : Bool)
    (h : message.action = "read") :
    generate_annotation_event translate serialize message socket ann
      user_nipsad = .ok none := by
  unfold generate_annotation_event
  simp [h]

/-- Self-echo events make the pipeline return nothing. -/
theorem generate_none_of_self_echo (translate : List String → List String)
    (serialize : Annotation → Socket → Doc)
    (message : AnnotationMessage) (socket : Socket)
    (ann : Option Annotation) (user_nipsad : Bool)
    (h : message.src_client_id = socket.client_id) :
    generate_annotation_event translate serialize message socket ann
      user_nipsad = .ok none := by
  unfold generate_annotation_event
  by_cases hr : message.action = "read" <;> simp [hr, h]

/-- A socket without an installed filter makes the pipeline return
nothing. -/
theorem generate_none_of_filter_none (translate : List String → List String)
    (serialize : Annotation → Socket → Doc)
    (message : AnnotationMessage) (socket : Socket)
    (ann : Option Annotation) (user_nipsad : Bool)
    (h : socket.filter = none) :
    generate_annotation_event translate serialize message socket ann
      user_nipsad = .ok none := by
  unfold generate_annotation_event
  by_cases hr : message.action = "read" <;>
    by_cases hs : message.src_client_id = socket.client_id <;>
      simp [hr, hs, h]

/-- If document resolution raises, the pipeline propagates the exception
(when no earlier gate suppressed first). -/
theorem generate_error_of_doc_error (translate : List String → List String)
    (serialize : Annotation → Socket → Doc)
    (message : AnnotationMessage) (socket : Socket)
    (ann : Option Annotation) (user_nipsad : Bool)
    (fl : Doc → String → Bool) (e : PyErr)
    (hread : message.action ≠ "read")
    (hsrc : message.src_client_id ≠ socket.client_id)
    (hfl : socket.filter = some fl)
    (hdoc : resolvedDoc message ann serialize socket = .error e) :
    generate_annotation_event translate serialize message socket ann
      user_nipsad = .error e := by
  unfold generate_annotation_event
  simp [hread, hsrc, hfl, hdoc]

/-- If document resolution yields no document, the pipeline returns
nothing. -/
theorem generate_none_of_doc_none (translate : List String → List String)
    (serialize : Annotation → Socket → Doc)
    (message : AnnotationMessage) (socket : Socket)
    (ann : Option Annotation) (user_nipsad : Bool)
    (fl : Doc → String → Bool)
    (hread : message.action ≠ "read")
    (hsrc : message.src_client_id ≠ socket.client_id)
    (hfl : socket.filter = some fl)
    (hdoc : resolvedDoc message ann serialize socket = .ok none) :
    generate_annotation_event translate serialize message socket ann
      user_nipsad = .ok none := by
  unfold generate_annotation_event
  simp [hread, hsrc, hfl, hdoc]

/-- Once the early gates pass and the document resolves, the pipeline equals
its tail: the shadow-ban gate, the authorization gate, the filter gate and
the shaping step applied to the resolved document. -/
theorem generate_eq_of_resolved (translate : List String → List String)
    (serialize : Annotation → Socket → Doc)
    (message : AnnotationMessage) (socket : Socket)
    (ann : Option Annotation) (user_nipsad : Bool)
    (fl : Doc → String → Bool) (d : Doc)
    (hread : message.action ≠ "read")
    (hsrc : message.src_client_id ≠ socket.client_id)
    (hfl : socket.filter = some fl)
    (hdoc : resolvedDoc message ann serialize socket = .ok (some d)) :
    generate_annotation_event translate serialize message socket ann
      user_nipsad =
      if user_nipsad ∧ socket.authenticated_userid ≠ d.user then .ok none
      else
        match authorized_to_read translate socket.effective_principals
            d.permissions with
        | .error e => .error e
        | .ok authorized =>
          if ¬ authorized then .ok none
          else if ¬ fl d message.action then .ok none
          else
            .ok (some
              { type := "annotation-notification"
                options := { action := message.action }
                payload :=
                  if message.action = "delete" then
                    [PayloadItem.idOnly message.annotation_id]
                  else
                    [PayloadItem.doc d] }) := by
  unfold generate_annotation_event
  simp [hread, hsrc, hfl, hdoc]

/-- For a non-delete action, a resolved document is the fresh serialization
of a present live record. -/
theorem resolvedDoc_nondelete_some (message : AnnotationMessage)
    (ann : Option Annotation) (serialize : Annotation → Socket → Doc)
    (socket : Socket) (d : Doc)
    (hnd : message.action ≠ "delete")
    (hdoc : resolvedDoc message ann serialize socket = .ok (some d)) :
    ∃ a, ann = some a ∧ d = serialize a socket := by
  unfold resolvedDoc at hdoc
  rw [if_neg hnd] at hdoc
  cases ann with
  | none => simp at hdoc
  | some a =>
    simp only [Except.ok.injEq, Option.some.injEq] at hdoc
    exact ⟨a, rfl, hdoc.symm⟩

/-- A pair is sent by the user-event handler exactly when its socket is in
the snapshot and the per-connection decision produced its reply. -/
theorem handle_user_event_mem_iff (message : UserMessage)
    (sockets : List Socket) (socket : Socket)
    (reply : SessionChangeNotification) :
    (socket, reply) ∈ handle_user_event message sockets ↔
      socket ∈ sockets ∧ generate_user_event message socket = some reply := by
  induction sockets with
  | nil => simp [handle_user_event]
  | cons s rest ih =>
    cases hg : generate_user_event message s with
    | none =>
      simp only [handle_user_event, hg, ih, List.mem_cons]
      constructor
      · rintro ⟨hmem, hgen⟩
        exact ⟨Or.inr hmem, hgen⟩
      · rintro ⟨heq | hmem, hgen⟩
        · subst heq
          rw [hg] at hgen
          cases hgen
        · exact ⟨hmem, hgen⟩
    | some rep =>
      simp only [handle_user_event, hg, List.mem_cons, ih, Prod.mk.injEq]
      constructor
      · rintro (⟨heq1, heq2⟩ | ⟨hmem, hgen⟩)
        · subst heq1
          subst heq2
          exact ⟨Or.inl rfl, hg⟩
        · exact ⟨Or.inr hmem, hgen⟩
      · rintro ⟨heq | hmem, hgen⟩
        · subst heq
          rw [hg] at hgen
          obtain rfl : rep = reply := by simpa using hgen
          exact Or.inl ⟨rfl, rfl⟩
        · exact Or.inr ⟨hmem, hgen⟩

/-- C4: for every annotation event and every connection whose filter is
null, no annotation-event message is ever delivered to that connection:
the pipeline returns None for such a socket. -/
theorem null_filter_never_delivered (translate : List String → List String)
    (serialize : Annotation → Socket → Doc)
    (message : AnnotationMessage) (socket : Socket)
    (ann : Option Annotation) (user_nipsad : Bool)
    (h : socket.filter = none) :
    generate_annotation_event translate serialize message socket ann
      user_nipsad = .ok none :=
  generate_none_of_filter_none translate serialize message socket ann
    user_nipsad h

/-- Witness for C4 at a concrete filterless connection. -/
theorem null_filter_never_delivered_witness :
    generate_annotation_event trId (serializeConst docPublic) msgCreate
      sockNoFilter (some annA) false = .ok none :=
  null_filter_never_delivered trId (serializeConst docPublic) msgCreate
    sockNoFilter (some annA) false rfl

/-- C1: for every annotation event and connection, if the translated read
principals of the serialized document's permissions do not intersect the
connection's effective principals then the pipeline returns None, and a
message is generated only when the two principal sets intersect. -/
theorem delivery_requires_read_principal_intersection
    (translate : List String → List String)
    (serialize : Annotation → Socket → Doc)
    (message : AnnotationMessage) (socket : Socket)
    (ann : Option Annotation) (user_nipsad : Bool) :
    (∀ d perms,
      resolvedDoc message ann serialize socket = .ok (some d) →
      d.permissions = some perms →
      (∀ p ∈ translate (perms.read.getD []),
        p ∉ socket.effective_principals) →
      generate_annotation_event translate serialize message socket ann
        user_nipsad = .ok none)
    ∧
    (∀ reply,
      generate_annotation_event translate serialize message socket ann
        user_nipsad = .ok (some reply) →
      ∃ d perms p,
        resolvedDoc message ann serialize socket = .ok (some d) ∧
        d.permissions = some perms ∧
        p ∈ translate (perms.read.getD []) ∧
        p ∈ socket.effective_principals) := by
  constructor
  · intro d perms hdoc hperms hno
    by_cases hr : message.action = "read"
    · exact generate_none_of_read _ _ _ _ _ _ hr
    by_cases hs : message.src_client_id = socket.client_id
    · exact generate_none_of_self_echo _ _ _ _ _ _ hs
    cases hfl : socket.filter with
    | none => exact generate_none_of_filter_none _ _ _ _ _ _ hfl
    | some fl =>
      rw [generate_eq_of_resolved translate serialize message socket ann
        user_nipsad fl d hr hs hfl hdoc]
      by_cases hnip : user_nipsad ∧ socket.authenticated_userid ≠ d.user
      · rw [if_pos hnip]
      · rw [if_neg hnip, hperms,
          authorized_to_read_ok_false translate socket.effective_principals
            perms hno]
        simp
  · intro reply hgen
    by_cases hr : message.action = "read"
    · rw [generate_none_of_read _ _ _ _ _ _ hr] at hgen
      simp at hgen
    by_cases hs : message.src_client_id = socket.client_id
    · rw [generate_none_of_self_echo _ _ _ _ _ _ hs] at hgen
      simp at hgen
    cases hfl : socket.filter with
    | none =>
      rw [generate_none_of_filter_none _ _ _ _ _ _ hfl] at hgen
      simp at hgen
    | some fl =>
      cases hdoc : resolvedDoc message ann serialize socket with
      | error e =>
        rw [generate_error_of_doc_error _ _ _ _ _ _ fl e hr hs hfl hdoc]
          at hgen
        simp at hgen
      | ok od =>
        cases od with
        | none =>
          rw [generate_none_of_doc_none _ _ _ _ _ _ fl hr hs hfl hdoc]
            at hgen
          simp at hgen
        | some d =>
          rw [generate_eq_of_resolved translate serialize message socket ann
            user_nipsad fl d hr hs hfl hdoc] at hgen
          by_cases hnip : user_nipsad ∧ socket.authenticated_userid ≠ d.user
          · rw [if_pos hnip] at hgen
            simp at hgen
          rw [if_neg hnip] at hgen
          cases hauth : authorized_to_read translate
              socket.effective_principals d.permissions with
          | error e =>
            rw [hauth] at hgen
            simp at hgen
          | ok authorized =>
            rw [hauth] at hgen
            cases authorized with
            | false => simp at hgen
            | true =>
              obtain ⟨perms, hperms, p, hp, hpe⟩ :=
                (authorized_to_read_ok_true_iff translate
                  socket.effective_principals d.permissions).mp hauth
              exact ⟨d, perms, p, rfl, hperms, hp, hpe⟩

/-- Witness for C1 at a connection holding only a private principal. -/
theorem delivery_requires_read_principal_intersection_witness :
    generate_annotation_event trId (serializeConst docPublic) msgCreate
      sockC2 (some annA) false = .ok none :=
  (delivery_requires_read_principal_intersection trId
    (serializeConst docPublic) msgCreate sockC2 (some annA) false).1
    docPublic permsPublic rfl rfl (by decide)

/-- C2 counterexample: a non-delete event whose serialized document has no
permissions entry, sent toward a connection that passes every earlier gate,
makes the pipeline raise AttributeError instead of suppressing quietly,
refuting the claim that a translation failure never raises. -/
theorem missing_permissions_entry_raises :
    generate_annotation_event trId (serializeConst docNoPerms) msgCreate
      sockC1 (some annA) false = .error .attributeError := rfl

/-- C2 (amended): if the permissions entry is present but lacks a read key,
the read list defaults to empty and (whenever translation maps the empty
list to no principals) the intersection test fails, so delivery is
suppressed without an exception; if the permissions entry itself is
missing, the pipeline never delivers the event to that connection, but it
raises AttributeError rather than suppressing silently. -/
theorem permission_translation_failure_handling
    (translate : List String → List String)
    (serialize : Annotation → Socket → Doc)
    (message : AnnotationMessage) (socket : Socket)
    (ann : Option Annotation) (user_nipsad : Bool) :
    (∀ d,
      resolvedDoc message ann serialize socket = .ok (some d) →
      d.permissions = some { read := none } →
      translate [] = [] →
      generate_annotation_event translate serialize message socket ann
        user_nipsad = .ok none)
    ∧
    (∀ d reply,
      resolvedDoc message ann serialize socket = .ok (some d) →
      d.permissions = none →
      generate_annotation_event translate serialize message socket ann
        user_nipsad ≠ .ok (some reply)) := by
  constructor
  · intro d hdoc hperms htr
    by_cases hr : message.action = "read"
    · exact generate_none_of_read _ _ _ _ _ _ hr
    by_cases hs : message.src_client_id = socket.client_id
    · exact generate_none_of_self_echo _ _ _ _ _ _ hs
    cases hfl : socket.filter with
    | none => exact generate_none_of_filter_none _ _ _ _ _ _ hfl
    | some fl =>
      rw [generate_eq_of_resolved translate serialize message socket ann
        user_nipsad fl d hr hs hfl hdoc]
      by_cases hnip : user_nipsad ∧ socket.authenticated_userid ≠ d.user
      · rw [if_pos hnip]
      · rw [if_neg hnip, hperms,
          authorized_to_read_ok_false translate socket.effective_principals
            { read := none } (by simp [htr])]
        simp
  · intro d reply hdoc hperms hgen
    by_cases hr : message.action = "read"
    · rw [generate_none_of_read _ _ _ _ _ _ hr] at hgen
      simp at hgen
    by_cases hs : message.src_client_id = socket.client_id
    · rw [generate_none_of_self_echo _ _ _ _ _ _ hs] at hgen
      simp at hgen
    cases hfl : socket.filter with
    | none =>
      rw [generate_none_of_filter_none _ _ _ _ _ _ hfl] at hgen
      simp at hgen
    | some fl =>
      rw [generate_eq_of_resolved translate serialize message socket ann
        user_nipsad fl d hr hs hfl hdoc] at hgen
      by_cases hnip : user_nipsad ∧ socket.authenticated_userid ≠ d.user
      · rw [if_pos hnip] at hgen
        simp at hgen
      · rw [if_neg hnip, hperms,
          authorized_to_read_none_error translate
            socket.effective_principals] at hgen
        simp at hgen

/-- Witness for C2 (amended) at a document whose permissions entry lacks a
read key. -/
theorem permission_translation_failure_handling_witness :
    generate_annotation_event trId (serializeConst docNoRead) msgCreate
      sockC1 (some annA) false = .ok none :=
  (permission_translation_failure_handling trId (serializeConst docNoRead)
    msgCreate sockC1 (some annA) false).1 docNoRead rfl rfl rfl

/-- C3: when the author is shadow-banned, a connection authenticated as the
author is unaffected by the shadow-ban gate (its result equals the
unflagged run), while a connection authenticated as anyone else never
receives a message for the event. -/
theorem shadow_ban_author_only_visibility
    (translate : List String → List String)
    (serialize : Annotation → Socket → Doc)
    (message : AnnotationMessage) (socket : Socket)
    (ann : Option Annotation) :
    (∀ d,
      resolvedDoc message ann serialize socket = .ok (some d) →
      socket.authenticated_userid = d.user →
      generate_annotation_event translate serialize message socket ann
        true =
      generate_annotation_event translate serialize message socket ann
        false)
    ∧
    (∀ d reply,
      resolvedDoc message ann serialize socket = .ok (some d) →
      socket.authenticated_userid ≠ d.user →
      generate_annotation_event translate serialize message socket ann
        true ≠ .ok (some reply)) := by
  constructor
  · intro d hdoc hauth
    by_cases hr : message.action = "read"
    · rw [generate_none_of_read _ _ _ _ _ _ hr,
        generate_none_of_read _ _ _ _ _ _ hr]
    by_cases hs : message.src_client_id = socket.client_id
    · rw [generate_none_of_self_echo _ _ _ _ _ _ hs,
        generate_none_of_self_echo _ _ _ _ _ _ hs]
    cases hfl : socket.filter with
    | none =>
      rw [generate_none_of_filter_none _ _ _ _ _ _ hfl,
        generate_none_of_filter_none _ _ _ _ _ _ hfl]
    | some fl =>
      rw [generate_eq_of_resolved translate serialize message socket ann
        true fl d hr hs hfl hdoc,
        generate_eq_of_resolved translate serialize message socket ann
        false fl d hr hs hfl hdoc]
      simp [hauth]
  · intro d reply hdoc hne hgen
    by_cases hr : message.action = "read"
    · rw [generate_none_of_read _ _ _ _ _ _ hr] at hgen
      simp at hgen
    by_cases hs : message.src_client_id = socket.client_id
    · rw [generate_none_of_self_echo _ _ _ _ _ _ hs] at hgen
      simp at hgen
    cases hfl : socket.filter with
    | none =>
      rw [generate_none_of_filter_none _ _ _ _ _ _ hfl] at hgen
      simp at hgen
    | some fl =>
      rw [generate_eq_of_resolved translate serialize message socket ann
        true fl d hr hs hfl hdoc, if_pos ⟨rfl, hne⟩] at hgen
      simp at hgen

/-- Witness for C3: the author's own connection gets the same result flagged
as unflagged. -/
theorem shadow_ban_author_only_visibility_witness :
    generate_annotation_event trId (serializeConst docPublic) msgCreate
      sockAuthor (some annA) true =
    generate_annotation_event trId (serializeConst docPublic) msgCreate
      sockAuthor (some annA) false :=
  (shadow_ban_author_only_visibility trId (serializeConst docPublic)
    msgCreate sockAuthor (some annA)).1 docPublic rfl rfl

/-- C5: the annotation handler passes exactly one userid to the shadow-ban
lookup per event, independent of the connection snapshot, and that userid
is the live record's author when the fetch succeeds, and otherwise the user
field of the payload's pre-serialized snapshot. -/
theorem nipsa_lookup_once_per_event
    (translate : List String → List String)
    (serialize : Annotation → Socket → Doc)
    (fetch : String → Option Annotation)
    (is_flagged : Option String → Bool)
    (message : AnnotationMessage) (sockets : List Socket) :
    (handle_annotation_event translate serialize fetch is_flagged message
      sockets).1.length = 1
    ∧
    (handle_annotation_event translate serialize fetch is_flagged message
      sockets).1 =
      [match fetch message.annotation_id with
       | some a => some a.userid
       | none =>
         match message.annotation_dict with
         | none => none
         | some d => d.user] := by
  constructor
  · rfl
  · rfl

/-- C6: every delivered notification has the fixed type and options, a
singleton serialized-document payload for non-delete actions, and the
reduced identifier-only payload for deletes. -/
theorem delivered_notification_shape
    (translate : List String → List String)
    (serialize : Annotation → Socket → Doc)
    (message : AnnotationMessage) (socket : Socket)
    (ann : Option Annotation) (user_nipsad : Bool)
    (reply : Notification)
    (hgen : generate_annotation_event translate serialize message socket
      ann user_nipsad = .ok (some reply)) :
    reply.type = "annotation-notification" ∧
    reply.options = { action := message.action } ∧
    (message.action = "delete" →
      reply.payload = [PayloadItem.idOnly message.annotation_id]) ∧
    (message.action ≠ "delete" →
      ∃ a, ann = some a ∧
        reply.payload = [PayloadItem.doc (serialize a socket)]) := by
  by_cases hr : message.action = "read"
  · rw [generate_none_of_read _ _ _ _ _ _ hr] at hgen
    simp at hgen
  by_cases hs : message.src_client_id = socket.client_id
  · rw [generate_none_of_self_echo _ _ _ _ _ _ hs] at hgen
    simp at hgen
  cases hfl : socket.filter with
  | none =>
    rw [generate_none_of_filter_none _ _ _ _ _ _ hfl] at hgen
    simp at hgen
  | some fl =>
    cases hdoc : resolvedDoc message ann serialize socket with
    | error e =>
      rw [generate_error_of_doc_error _ _ _ _ _ _ fl e hr hs hfl hdoc]
        at hgen
      simp at hgen
    | ok od =>
      cases od with
      | none =>
        rw [generate_none_of_doc_none _ _ _ _ _ _ fl hr hs hfl hdoc] at hgen
        simp at hgen
      | some d =>
        rw [generate_eq_of_resolved translate serialize message socket ann
          user_nipsad fl d hr hs hfl hdoc] at hgen
        by_cases hnip : user_nipsad ∧ socket.authenticated_userid ≠ d.user
        · rw [if_pos hnip] at hgen
          simp at hgen
        rw [if_neg hnip] at hgen
        cases hauth : authorized_to_read translate
            socket.effective_principals d.permissions with
        | error e =>
          rw [hauth] at hgen
          simp at hgen
        | ok authorized =>
          rw [hauth] at hgen
          cases authorized with
          | false => simp at hgen
          | true =>
            cases hm : fl d message.action with
            | false =>
              rw [hm] at hgen
              simp at hgen
            | true =>
              rw [hm] at hgen
              simp at hgen
              subst hgen
              refine ⟨rfl, rfl, ?_, ?_⟩
              · intro hd
                simp [hd]
              · intro hnd
                obtain ⟨a, ha, hda⟩ := resolvedDoc_nondelete_some message
                  ann serialize socket d hnd hdoc
                subst hda
                simp [hnd, ha]

/-- Witness for C6: the sample delete event shapes to the identifier-only
payload for a passing connection. -/
theorem delivered_notification_shape_witness :
    notifDelete.type = "annotation-notification" ∧
    notifDelete.options = { action := msgDelete.action } ∧
    (msgDelete.action = "delete" →
      notifDelete.payload = [PayloadItem.idOnly msgDelete.annotation_id]) ∧
    (msgDelete.action ≠ "delete" →
      ∃ a, (some annA : Option Annotation) = some a ∧
        notifDelete.payload =
          [PayloadItem.doc (serializeConst docPublic a sockC1)]) :=
  delivered_notification_shape trId (serializeConst docPublic) msgDelete
    sockC1 (some annA) false notifDelete rfl

/-- C7: a user event is delivered to a connection exactly when the
connection's authenticated identity equals the payload's userid; the
delivered message is exactly the fixed session-change shape; the decision
never consults the connection's filter; and the handler sends to precisely
the matching connections of the snapshot. -/
theorem user_event_exact_targeting (message : UserMessage)
    (socket : Socket) :
    ((generate_user_event message socket).isSome ↔
      socket.authenticated_userid = message.userid)
    ∧
    (∀ reply, generate_user_event message socket = some reply →
      reply = { type := "session-change", action := message.type,
                model := message.session_model })
    ∧
    (∀ fl, generate_user_event message { socket with filter := fl } =
      generate_user_event message socket)
    ∧
    (∀ sockets reply,
      (socket, reply) ∈ handle_user_event message sockets ↔
        socket ∈ sockets ∧
          generate_user_event message socket = some reply) := by
  refine ⟨?_, ?_, ?_, ?_⟩
  · unfold generate_user_event
    split <;> simp_all
  · intro reply h
    unfold generate_user_event at h
    split at h <;> simp_all
  · intro fl
    rfl
  · intro sockets reply
    exact handle_user_event_mem_iff message sockets socket reply

/-- Witness for C7: the matching sample connection is delivered to. -/
theorem user_event_exact_targeting_witness :
    (generate_user_event userMsgU1 sockAuthor).isSome :=
  (user_event_exact_targeting userMsgU1 sockAuthor).1.mpr rfl

/-- C8: the dispatcher raises exactly when the message's topic has no
registered handler (resolution by exact topic match); a registered handler
is invoked exactly once, with the payload and the connection snapshot. -/
theorem dispatch_handler_resolution {α : Type} (message : Message)
    (instances : List Socket) (topic_handlers : List (String × α)) :
    ((∃ e, handle_message message instances topic_handlers = .error e) ↔
      lookupHandler message.topic topic_handlers = none)
    ∧
    (∀ h, lookupHandler message.topic topic_handlers = some h →
      handle_message message instances topic_handlers =
        .ok [{ handler := h, payload := message.payload,
               sockets := instances }]) := by
  constructor
  · unfold handle_message
    cases hl : lookupHandler message.topic topic_handlers with
    | none => simp
    | some h => simp
  · intro h hl
    unfold handle_message
    rw [hl]

/-- Witness for C8: the sample mapping resolves the annotation topic and
records exactly one invocation. -/
theorem dispatch_handler_resolution_witness :
    handle_message busMsgAnn [sockC1] topicHandlersSample =
      .ok [{ handler := 1, payload := "p", sockets := [sockC1] }] :=
  (dispatch_handler_resolution busMsgAnn [sockC1] topicHandlersSample).2
    1 rfl

/-- C9 counterexample: invoked with raise_error set to false, the function
returns normally to its caller after the consumer's run loop returns,
refuting the claim for that invocation. -/
theorem process_messages_returns_normally_when_flag_false :
    process_messages false = .ok () := rfl

/-- C9 (amended): when raise_error is true — the Python default — a
returning consumer run loop makes process_messages raise a RuntimeError
rather than return normally. -/
theorem process_messages_raises_when_flag_true :
    process_messages true =
      .error "Realtime consumer quit unexpectedly!" := rfl

/-- C10: a user event with a null userid is delivered, in the fixed
session-change shape, to a socket whose authenticated identity is also
null: the targeting test is plain equality of the two identities. -/
theorem null_userid_targets_unauthenticated (message : UserMessage)
    (socket : Socket)
    (hm : message.userid = none)
    (hs : socket.authenticated_userid = none) :
    generate_user_event message socket =
      some { type := "session-change", action := message.type,
             model := message.session_model } := by
  unfold generate_user_event
  rw [hm, hs]
  simp

/-- Witness for C10 at a concrete unauthenticated connection and
null-userid event. -/
theorem null_userid_targets_unauthenticated_witness :
    generate_user_event userMsgNull sockNoFilter =
      some { type := "session-change", action := "session-change",
             model := "m" } :=
  null_userid_targets_unauthenticated userMsgNull sockNoFilter rfl rfl
